import Mathlib

/-!
Verification of the Vanguard risk-decision and alert-dispatch core.

Shallow embedding of `src/vanguard`, with Python floats modelled as exact
rationals (`ℚ`), Python ints as `ℤ`/`ℕ`, async effects as explicit state
passing plus call traces, and exceptions as `Except`.
-/

namespace Vanguard

/-- Python's `round` on a number with no `ndigits`: round half to even
(banker's rounding), as an integer. -/
def roundHalfEven (q : ℚ) : ℤ :=
  let f := Int.floor q
  let frac := q - f
  if frac < 1/2 then f
  else if 1/2 < frac then f + 1
  else if f % 2 = 0 then f else f + 1

/-- Python's `round(x, 2)`: round to two decimal places, half to even. -/
def round2 (q : ℚ) : ℚ := (roundHalfEven (q * 100) : ℚ) / 100

/-- `schemas.RiskEvent` (pydantic model): a normalized external event.
`severity` is an `int` validated `ge=0, le=100` (hence `ℕ` here);
`confidence` is a `float` validated `ge=0.0, le=1.0`. `event_time` is an
epoch timestamp. -/
structure RiskEvent where
  event_type : String
  geo_location : String
  severity : ℕ
  confidence : ℚ
  description : String
  source : String
  route : String
  event_time : ℤ
deriving DecidableEq, Repr

/-- `schemas.BaselineScore`: deterministic score components. -/
structure BaselineScore where
  geopolitical : ℚ
  port_congestion : ℚ
  weather : ℚ
  historical_reliability : ℚ
deriving DecidableEq, Repr

/-- `scoring.compute_baseline_components`: aggregate events into normalized
scoring dimensions. -/
def compute_baseline_components (events : List RiskEvent) : BaselineScore :=
  if events = [] then
    { geopolitical := 0.0, port_congestion := 0.0, weather := 0.0
      historical_reliability := 80.0 }
  else
    let geo_values := (events.filter (fun e => e.event_type = "Geopolitical")).map
      (fun e => (e.severity : ℚ) * e.confidence)
    let port_values := (events.filter (fun e => e.event_type = "PortCongestion")).map
      (fun e => (e.severity : ℚ) * e.confidence)
    let weather_values := (events.filter (fun e => e.event_type = "Weather")).map
      (fun e => (e.severity : ℚ) * e.confidence)
    let geopolitical := min 100.0 (geo_values.sum / (max geo_values.length 1 : ℕ))
    let port_congestion := min 100.0 (port_values.sum / (max port_values.length 1 : ℕ))
    let weather := min 100.0 (weather_values.sum / (max weather_values.length 1 : ℕ))
    let disruption_count := (events.filter (fun e => 70 ≤ e.severity)).length
    let historical_reliability := max 20.0 (90.0 - (disruption_count : ℚ) * 5.0)
    { geopolitical, port_congestion, weather, historical_reliability }

/-- `scoring.compute_baseline_risk`: weighted baseline formula. -/
def compute_baseline_risk (components : BaselineScore) : ℚ :=
  round2
    (0.35 * components.geopolitical
      + 0.30 * components.port_congestion
      + 0.20 * components.weather
      + 0.15 * (100.0 - components.historical_reliability))

/-- `scoring.combine_baseline_and_llm`: blend deterministic and LLM risk;
cap at [0, 100]. -/
def combine_baseline_and_llm (baseline_risk : ℚ) (llm_risk : ℤ)
    (llm_confidence : ℚ) : ℚ :=
  let llm_weight := 0.2 + 0.4 * llm_confidence
  let baseline_weight := 1.0 - llm_weight
  let score := baseline_weight * baseline_risk + llm_weight * (llm_risk : ℚ)
  round2 (max 0.0 (min 100.0 score))

/-! ### Helper lemmas about the rounding model -/

lemma roundHalfEven_cases (q : ℚ) :
    roundHalfEven q = ⌊q⌋ ∨ roundHalfEven q = ⌊q⌋ + 1 := by
  simp only [roundHalfEven]
  split_ifs <;> simp

lemma floor_le_roundHalfEven (q : ℚ) : ⌊q⌋ ≤ roundHalfEven q := by
  rcases roundHalfEven_cases q with h | h <;> omega

lemma le_roundHalfEven (n : ℤ) (q : ℚ) (h : (n : ℚ) ≤ q) : n ≤ roundHalfEven q :=
  le_trans (Int.le_floor.mpr h) (floor_le_roundHalfEven q)

lemma roundHalfEven_le (n : ℤ) (q : ℚ) (h : q ≤ (n : ℚ)) : roundHalfEven q ≤ n := by
  have hfl : ⌊q⌋ ≤ n := Int.floor_le_floor h |>.trans_eq (Int.floor_intCast n)
  simp only [roundHalfEven]
  split_ifs with h1 h2 h3
  · exact hfl
  all_goals {
    push_neg at h1
    have hne : ⌊q⌋ ≠ n := by
      intro he
      have hq : q ≤ (⌊q⌋ : ℚ) := by rw [he]; exact_mod_cast h
      linarith
    omega }

lemma roundHalfEven_intCast (n : ℤ) : roundHalfEven (n : ℚ) = n := by
  have h1 : n ≤ roundHalfEven (n : ℚ) := le_roundHalfEven n _ le_rfl
  have h2 : roundHalfEven (n : ℚ) ≤ n := roundHalfEven_le n _ le_rfl
  omega

lemma round2_eq_of_mul_eq (q : ℚ) (n : ℤ) (h : q * 100 = (n : ℚ)) :
    round2 q = (n : ℚ) / 100 := by
  rw [round2, h, roundHalfEven_intCast]

lemma le_round2 (n : ℤ) (q : ℚ) (h : (n : ℚ) ≤ q * 100) :
    (n : ℚ) / 100 ≤ round2 q := by
  rw [round2]
  have := le_roundHalfEven n (q * 100) h
  have : (n : ℚ) ≤ (roundHalfEven (q * 100) : ℚ) := by exact_mod_cast this
  linarith

lemma round2_le (n : ℤ) (q : ℚ) (h : q * 100 ≤ (n : ℚ)) :
    round2 q ≤ (n : ℚ) / 100 := by
  rw [round2]
  have := roundHalfEven_le n (q * 100) h
  have : (roundHalfEven (q * 100) : ℚ) ≤ (n : ℚ) := by exact_mod_cast this
  linarith

/-! ### Helper lemmas about the baseline scorer -/

lemma compute_baseline_components_nil :
    compute_baseline_components [] =
      { geopolitical := 0, port_congestion := 0, weather := 0
        historical_reliability := 80 } := by
  simp [compute_baseline_components]
  norm_num

lemma dim_values_sum_nonneg (events : List RiskEvent) (t : String)
    (hconf : ∀ e ∈ events, 0 ≤ e.confidence) :
    0 ≤ ((events.filter (fun e => e.event_type = t)).map
      (fun e => (e.severity : ℚ) * e.confidence)).sum := by
  apply List.sum_nonneg
  intro x hx
  simp only [List.mem_map, List.mem_filter] at hx
  obtain ⟨e, ⟨he, _⟩, rfl⟩ := hx
  exact mul_nonneg (by positivity) (hconf e he)

lemma min_avg_bounds (vs : List ℚ) (hsum : 0 ≤ vs.sum) :
    0 ≤ min 100.0 (vs.sum / (max vs.length 1 : ℕ)) ∧
      min 100.0 (vs.sum / (max vs.length 1 : ℕ)) ≤ 100 := by
  constructor
  · apply le_min (by norm_num)
    apply div_nonneg hsum
    positivity
  · calc min 100.0 (vs.sum / (max vs.length 1 : ℕ)) ≤ 100.0 := min_le_left _ _
      _ ≤ 100 := by norm_num

lemma min_avg_eq_spec (vs : List ℚ) :
    min 100.0 (vs.sum / (max vs.length 1 : ℕ)) =
      if vs = [] then 0 else min 100 (vs.sum / vs.length) := by
  by_cases hv : vs = []
  · subst hv
    norm_num
  · have hlen : max vs.length 1 = vs.length :=
      Nat.max_eq_left (List.length_pos.mpr hv)
    simp only [hv, if_neg, hlen]
    norm_num

lemma compute_baseline_components_bounds (events : List RiskEvent)
    (hconf : ∀ e ∈ events, 0 ≤ e.confidence) :
    (0 ≤ (compute_baseline_components events).geopolitical ∧
      (compute_baseline_components events).geopolitical ≤ 100) ∧
    (0 ≤ (compute_baseline_components events).port_congestion ∧
      (compute_baseline_components events).port_congestion ≤ 100) ∧
    (0 ≤ (compute_baseline_components events).weather ∧
      (compute_baseline_components events).weather ≤ 100) ∧
    (20 ≤ (compute_baseline_components events).historical_reliability ∧
      (compute_baseline_components events).historical_reliability ≤ 90) := by
  by_cases hev : events = []
  · subst hev
    rw [compute_baseline_components_nil]
    norm_num
  · simp only [compute_baseline_components, hev, if_neg, ne_eq, not_false_eq_true]
    refine ⟨min_avg_bounds _ (dim_values_sum_nonneg events _ hconf),
      min_avg_bounds _ (dim_values_sum_nonneg events _ hconf),
      min_avg_bounds _ (dim_values_sum_nonneg events _ hconf), ?_, ?_⟩
    · calc (20 : ℚ) = 20.0 := by norm_num
        _ ≤ _ := le_max_left _ _
    · apply max_le (by norm_num)
      have : (0 : ℚ) ≤ ((events.filter (fun e => 70 ≤ e.severity)).length : ℚ) := by
        positivity
      linarith

lemma compute_baseline_risk_bounds (c : BaselineScore)
    (hg : 0 ≤ c.geopolitical ∧ c.geopolitical ≤ 100)
    (hp : 0 ≤ c.port_congestion ∧ c.port_congestion ≤ 100)
    (hw : 0 ≤ c.weather ∧ c.weather ≤ 100)
    (hh : 20 ≤ c.historical_reliability ∧ c.historical_reliability ≤ 90) :
    0 ≤ compute_baseline_risk c ∧ compute_baseline_risk c ≤ 100 := by
  obtain ⟨hg0, hg1⟩ := hg
  obtain ⟨hp0, hp1⟩ := hp
  obtain ⟨hw0, hw1⟩ := hw
  obtain ⟨hh0, hh1⟩ := hh
  unfold compute_baseline_risk
  constructor
  · have h0 := le_round2 0
      (0.35 * c.geopolitical + 0.30 * c.port_congestion + 0.20 * c.weather
        + 0.15 * (100.0 - c.historical_reliability)) (by push_cast; nlinarith)
    simpa using h0
  · have h1 := round2_le 10000
      (0.35 * c.geopolitical + 0.30 * c.port_congestion + 0.20 * c.weather
        + 0.15 * (100.0 - c.historical_reliability)) (by push_cast; nlinarith)
    calc round2 _ ≤ ((10000 : ℤ) : ℚ) / 100 := h1
      _ = 100 := by norm_num

/-- Spec-side characterization of a categorical dimension: the average of
`severity × confidence` over events of that type, capped at 100, and 0 when
the category is empty. -/
def categoryAverageSpec (events : List RiskEvent) (t : String) : ℚ :=
  let vs := (events.filter (fun e => e.event_type = t)).map
    (fun e => (e.severity : ℚ) * e.confidence)
  if vs = [] then 0 else min 100 (vs.sum / vs.length)

/-- C2: `compute_baseline_components` returns `{0, 0, 0, 80}` on the empty
event list; on a non-empty list each categorical dimension is the capped
average of `severity × confidence` over events of that type (0 for an empty
category) and `historical_reliability = max(20, 90 − 5 × count(severity ≥ 70))`. -/
theorem C2_baseline_components (events : List RiskEvent) (h : events ≠ []) :
    compute_baseline_components [] =
      { geopolitical := 0, port_congestion := 0, weather := 0
        historical_reliability := 80 } ∧
    (compute_baseline_components events).geopolitical
        = categoryAverageSpec events "Geopolitical" ∧
    (compute_baseline_components events).port_congestion
        = categoryAverageSpec events "PortCongestion" ∧
    (compute_baseline_components events).weather
        = categoryAverageSpec events "Weather" ∧
    (compute_baseline_components events).historical_reliability
        = max 20 (90 - 5 * ((events.filter (fun e => 70 ≤ e.severity)).length : ℚ)) := by
  refine ⟨compute_baseline_components_nil, ?_, ?_, ?_, ?_⟩ <;>
    simp only [compute_baseline_components, categoryAverageSpec, h, if_neg,
      ne_eq, not_false_eq_true, min_avg_eq_spec]
  norm_num [mul_comm]

/-- Witness for C2 at a concrete one-event list. -/
theorem C2_baseline_components_witness :
    ([⟨"Geopolitical", "Suez", 80, 1/2, "d", "s", "r", 0⟩] : List RiskEvent) ≠ [] ∧
      (compute_baseline_components
          [⟨"Geopolitical", "Suez", 80, 1/2, "d", "s", "r", 0⟩]).geopolitical
        = categoryAverageSpec [⟨"Geopolitical", "Suez", 80, 1/2, "d", "s", "r", 0⟩]
            "Geopolitical" :=
  ⟨by simp,
    (C2_baseline_components [⟨"Geopolitical", "Suez", 80, 1/2, "d", "s", "r", 0⟩]
      (by simp)).2.1⟩

/-- C3: `compute_baseline_risk` is the fixed weighted formula rounded to two
decimals; it returns exactly 58.5 on `{80, 60, 40, 70}`; for every valid event
list the composed baseline risk lies in [0, 100], with the empty list yielding
exactly 3.0. -/
theorem C3_baseline_risk (c : BaselineScore) (events : List RiskEvent)
    (hconf : ∀ e ∈ events, 0 ≤ e.confidence) :
    compute_baseline_risk c
        = round2 (0.35 * c.geopolitical + 0.30 * c.port_congestion
            + 0.20 * c.weather + 0.15 * (100 - c.historical_reliability)) ∧
    compute_baseline_risk
        { geopolitical := 80, port_congestion := 60, weather := 40
          historical_reliability := 70 } = 58.5 ∧
    (0 ≤ compute_baseline_risk (compute_baseline_components events) ∧
      compute_baseline_risk (compute_baseline_components events) ≤ 100) ∧
    compute_baseline_risk (compute_baseline_components []) = 3.0 := by
  refine ⟨by norm_num [compute_baseline_risk], ?_, ?_, ?_⟩
  · unfold compute_baseline_risk
    rw [round2_eq_of_mul_eq _ 5850 (by norm_num)]
    norm_num
  · obtain ⟨hg, hp, hw, hh⟩ := compute_baseline_components_bounds events hconf
    exact compute_baseline_risk_bounds _ hg hp hw hh
  · rw [compute_baseline_components_nil]
    unfold compute_baseline_risk
    rw [round2_eq_of_mul_eq _ 300 (by norm_num)]
    norm_num

/-- Witness for C3 at a concrete one-event list. -/
theorem C3_baseline_risk_witness :
    (∀ e ∈ ([⟨"Weather", "Chennai", 50, 1/2, "d", "s", "r", 0⟩] : List RiskEvent),
        0 ≤ e.confidence) ∧
      compute_baseline_risk (compute_baseline_components []) = 3.0 := by
  have h : ∀ e ∈ ([⟨"Weather", "Chennai", 50, 1/2, "d", "s", "r", 0⟩] : List RiskEvent),
      0 ≤ e.confidence := by
    intro e he
    simp only [List.mem_singleton] at he
    subst he
    norm_num
  exact ⟨h, (C3_baseline_risk
    { geopolitical := 0, port_congestion := 0, weather := 0
      historical_reliability := 80 }
    [⟨"Weather", "Chennai", 50, 1/2, "d", "s", "r", 0⟩] h).2.2.2⟩

/-- C4: `combine_baseline_and_llm` uses `llm_weight = 0.2 + 0.4 × confidence`
(hence in [0.2, 0.6] for confidence in [0, 1]), `baseline_weight` its
complement, and returns the blend clamped to [0, 100] rounded to two decimals;
for baseline 60.0 and LLM risk 80 the result lies in (60.0, 80.0] for every
confidence in (0, 1). -/
theorem C4_combine (baseline_risk : ℚ) (llm_risk : ℤ) (c : ℚ)
    (hc0 : 0 ≤ c) (hc1 : c ≤ 1) :
    (0.2 ≤ 0.2 + 0.4 * c ∧ 0.2 + 0.4 * c ≤ 0.6) ∧
    combine_baseline_and_llm baseline_risk llm_risk c
        = round2 (max 0 (min 100
            ((1 - (0.2 + 0.4 * c)) * baseline_risk + (0.2 + 0.4 * c) * (llm_risk : ℚ)))) ∧
    (0 < c → c < 1 →
      60 < combine_baseline_and_llm 60 80 c ∧ combine_baseline_and_llm 60 80 c ≤ 80) := by
  refine ⟨⟨by linarith, by linarith⟩, by norm_num [combine_baseline_and_llm], ?_⟩
  intro h0 h1
  simp only [combine_baseline_and_llm]
  have hscore : (1.0 - (0.2 + 0.4 * c)) * 60 + (0.2 + 0.4 * c) * ((80 : ℤ) : ℚ)
      = 60 + 20 * (0.2 + 0.4 * c) := by push_cast; ring
  rw [hscore]
  have hlo : (64 : ℚ) < 60 + 20 * (0.2 + 0.4 * c) := by linarith
  have hhi : 60 + 20 * (0.2 + 0.4 * c) < 72 := by linarith
  have hclamp : max 0.0 (min 100.0 (60 + 20 * (0.2 + 0.4 * c)))
      = 60 + 20 * (0.2 + 0.4 * c) := by
    rw [min_eq_right (by linarith), max_eq_right (by linarith)]
  rw [hclamp]
  constructor
  · have := le_round2 6400 (60 + 20 * (0.2 + 0.4 * c)) (by linarith)
    have h64 : ((6400 : ℤ) : ℚ) / 100 = 64 := by norm_num
    linarith [h64 ▸ this]
  · have := round2_le 7200 (60 + 20 * (0.2 + 0.4 * c)) (by linarith)
    have h72 : ((7200 : ℤ) : ℚ) / 100 = 72 := by norm_num
    linarith [h72 ▸ this]

/-- Witness for C4 at confidence 0.75. -/
theorem C4_combine_witness :
    (0 : ℚ) ≤ 0.75 ∧ (0.75 : ℚ) ≤ 1 ∧
      60 < combine_baseline_and_llm 60 80 0.75 ∧
      combine_baseline_and_llm 60 80 0.75 ≤ 80 := by
  have h := (C4_combine 60 80 0.75 (by norm_num) (by norm_num)).2.2
    (by norm_num) (by norm_num)
  exact ⟨by norm_num, by norm_num, h.1, h.2⟩

/-! ### Decision orchestrator (`engine.py`, `actions.py`, `reasoning.py`,
cache side of `storage.py`)

Async collaborator calls are modelled by explicit state passing plus a call
trace; a Python exception raised by a collaborator is an `Except.error`. -/

/-- `schemas.LLMRiskResponse` (pydantic, strictly validated). -/
structure LLMRiskResponse where
  risk_score : ℤ
  predicted_delay_days : ℚ
  alternatives : List String
  reasoning : String
  confidence_score : ℚ
deriving DecidableEq, Repr

/-- The `options` entries of the dict built by
`actions.build_cost_benefit_analysis`. -/
structure CostBenefitOption where
  option : String
  eta_days : ℚ
  cost_per_container_usd : ℚ
deriving DecidableEq, Repr

/-- The dict returned by `actions.build_cost_benefit_analysis`, with its
`assumptions` sub-dict inlined as the five `*_assump` fields. -/
structure CostBenefit where
  red_sea_eta_days : ℚ
  cape_eta_days : ℚ
  red_sea_cost_per_container_usd : ℚ
  cape_cost_per_container_usd : ℚ
  wait_window_days : ℚ
  options : List CostBenefitOption
  recommendation : String
  rationale : String
deriving DecidableEq, Repr

/-- `schemas.DecisionResult`. -/
structure DecisionResult where
  route : String
  baseline_risk : ℚ
  llm_risk : ℤ
  final_risk : ℚ
  predicted_delay_days : ℚ
  alternatives : List String
  reason : String
  confidence : ℚ
  requires_escalation : Bool
  recommended_action : String
  cost_benefit : Option CostBenefit
deriving DecidableEq, Repr

/-- `actions.should_trigger_reroute`: decision policy for proactive
rerouting. -/
def should_trigger_reroute (final_risk : ℚ) (predicted_delay_days : ℚ) : Bool :=
  decide (final_risk > 70.0) && decide (predicted_delay_days > 5.0)

/-- `actions.build_cost_benefit_analysis` (parameters made explicit; the
Python defaults are applied by `build_cost_benefit_analysis_default`). -/
def build_cost_benefit_analysis (wait_days red_sea_days
    red_sea_cost_per_container cape_days cape_cost_per_container : ℚ) :
    CostBenefit :=
  let wait_eta := red_sea_days + wait_days
  let wait_option : CostBenefitOption :=
    { option := "wait", eta_days := round2 wait_eta
      cost_per_container_usd := red_sea_cost_per_container }
  let reroute_option : CostBenefitOption :=
    { option := "reroute_now", eta_days := round2 cape_days
      cost_per_container_usd := cape_cost_per_container }
  let recommendation := if wait_eta < cape_days then "wait_3_days" else "reroute_now"
  let rationale :=
    if recommendation = "wait_3_days" then
      "Waiting is cheaper and still faster than Cape route."
    else
      "Reroute is selected because waiting does not improve ETA."
  { red_sea_eta_days := red_sea_days
    cape_eta_days := cape_days
    red_sea_cost_per_container_usd := red_sea_cost_per_container
    cape_cost_per_container_usd := cape_cost_per_container
    wait_window_days := wait_days
    options := [wait_option, reroute_option]
    recommendation := recommendation
    rationale := rationale }

/-- `actions.build_cost_benefit_analysis()` with the Python default
arguments (wait 3 days, Red Sea 15 days at $2000, Cape 28 days at $3500),
as invoked by `engine.py`. -/
def build_cost_benefit_analysis_default : CostBenefit :=
  build_cost_benefit_analysis 3.0 15.0 2000.0 28.0 3500.0

/-- The payload dict built by `reasoning.VanguardReasoner.build_cache_payload`. -/
structure CachePayload where
  route : String
  event_count : ℕ
  baseline_risk : ℚ
  event_fingerprints : List String
deriving DecidableEq, Repr

/-- `reasoning.VanguardReasoner.build_cache_payload`: deterministic cache
payload for semantic reuse. -/
def build_cache_payload (route : String) (events : List RiskEvent)
    (baseline_risk : ℚ) : CachePayload :=
  { route := route
    event_count := events.length
    baseline_risk := baseline_risk
    event_fingerprints := events.map
      (fun e => e.event_type ++ ":" ++ e.geo_location ++ ":" ++ toString e.severity) }

/-- A connected `asyncpg` pool of `storage.Storage`, restricted to the
`reasoning_cache` table. `cacheTable` maps a cache key to a stored response
and its `expires_at` timestamp; `readRaises`/`writeRaises` model the query
raising a database exception (the source has no `try`/`except` around those
queries). -/
structure StorageConn where
  cacheTable : String → Option (LLMRiskResponse × ℤ)
  readRaises : Bool
  writeRaises : Bool

/-- `storage.Storage`: `pool` is `None` until `connect()` succeeds. -/
structure Storage where
  pool : Option StorageConn

/-- `storage.Storage.get_cached_reasoning`: returns `None` when the pool is
absent, otherwise runs the query (`Except.error` models a raised database
exception) and returns the row only when `expires_at > NOW()`. -/
def Storage.get_cached_reasoning (s : Storage) (key : String) (now : ℤ) :
    Except Unit (Option LLMRiskResponse) :=
  match s.pool with
  | none => .ok none
  | some conn =>
    if conn.readRaises then .error ()
    else .ok (match conn.cacheTable key with
      | none => none
      | some (r, expires_at) => if now < expires_at then some r else none)

/-- `storage.Storage.set_cached_reasoning`: no-op when the pool is absent,
otherwise upserts the entry with `expires_at = now + ttl_minutes` (the raised
database exception is again `Except.error`). -/
def Storage.set_cached_reasoning (s : Storage) (key : String)
    (response : LLMRiskResponse) (ttl_minutes : ℤ) (now : ℤ) :
    Except Unit Storage :=
  match s.pool with
  | none => .ok s
  | some conn =>
    if conn.writeRaises then .error ()
    else .ok ⟨some { conn with
      cacheTable := fun k =>
        if k = key then some (response, now + ttl_minutes * 60) else conn.cacheTable k }⟩

/-- One effectful collaborator call made by `VanguardEngine.evaluate_route`,
recorded in order. -/
inductive EngineCall
  | cacheRead (key : String)
  | reasonerCall
  | cacheWrite (key : String)
deriving DecidableEq, Repr

/-- The two exception families `evaluate_route` can surface: a storage error
from the cache read/write, or `ReasoningError` from the reasoner. -/
inductive EngineErr
  | storage
  | reasoning
deriving DecidableEq, Repr

/-- The collaborators of `engine.VanguardEngine`: the reasoner's `evaluate`
(returning the validated response plus the prompt payload, or raising
`ReasoningError`), the storage collaborator, the `Storage.cache_key` static
hash (SHA-256 over the canonical JSON of route + payload, abstracted as an
arbitrary deterministic function — no claim depends on its value), and the
configured `llm_trigger_threshold` (default 45.0). -/
structure EngineEnv where
  reasonerEval : String → List RiskEvent → ℚ →
    Except Unit (LLMRiskResponse × CachePayload)
  storage : Storage
  cacheKeyFn : String → CachePayload → String
  llm_trigger_threshold : ℚ

/-- Lines 47–70 of `engine.evaluate_route`: blend, escalation, reroute,
cost-benefit and the assembled `DecisionResult`, shared by every path that
has an `llm_result` in hand. -/
def mkDecision (route : String) (baseline_risk : ℚ)
    (llm_result : LLMRiskResponse) : DecisionResult :=
  let final_risk := combine_baseline_and_llm baseline_risk
    llm_result.risk_score llm_result.confidence_score
  let escalation := decide (llm_result.confidence_score < 0.55)
  let reroute := should_trigger_reroute final_risk llm_result.predicted_delay_days
  let cba := if final_risk > 75 then some build_cost_benefit_analysis_default else none
  let recommended_action :=
    if reroute then
      match cba with
      | some c => c.recommendation
      | none => "reroute_now"
    else "monitor"
  { route := route
    baseline_risk := baseline_risk
    llm_risk := llm_result.risk_score
    final_risk := final_risk
    predicted_delay_days := llm_result.predicted_delay_days
    alternatives := llm_result.alternatives
    reason := llm_result.reasoning
    confidence := llm_result.confidence_score
    requires_escalation := escalation || reroute
    recommended_action := recommended_action
    cost_benefit := cba }

/-- The deterministic `LLMRiskResponse` synthesized by `evaluate_route` when
`baseline_risk < llm_trigger_threshold`. -/
def synthesizedResponse (baseline_risk : ℚ) : LLMRiskResponse :=
  { risk_score := roundHalfEven baseline_risk
    predicted_delay_days := max 0.5 (round2 (baseline_risk / 20))
    alternatives := ["Continue normal route monitoring",
      "Increase supplier lead-time buffer"]
    reasoning := "Baseline risk below LLM trigger threshold; deterministic policy applied."
    confidence_score := 0.60 }

/-- `engine.VanguardEngine.evaluate_route`, with the trace of collaborator
calls made. -/
def evaluate_route (env : EngineEnv) (route : String) (events : List RiskEvent)
    (now : ℤ) : Except EngineErr DecisionResult × List EngineCall :=
  let components := compute_baseline_components events
  let baseline_risk := compute_baseline_risk components
  if baseline_risk < env.llm_trigger_threshold then
    (.ok (mkDecision route baseline_risk (synthesizedResponse baseline_risk)), [])
  else
    let prompt_payload := build_cache_payload route events baseline_risk
    let key := env.cacheKeyFn route prompt_payload
    match env.storage.get_cached_reasoning key now with
    | .error _ => (.error .storage, [.cacheRead key])
    | .ok (some cached) =>
      (.ok (mkDecision route baseline_risk cached), [.cacheRead key])
    | .ok none =>
      match env.reasonerEval route events baseline_risk with
      | .error _ => (.error .reasoning, [.cacheRead key, .reasonerCall])
      | .ok (llm_result, _) =>
        match env.storage.set_cached_reasoning key llm_result 60 now with
        | .error _ =>
          (.error .storage, [.cacheRead key, .reasonerCall, .cacheWrite key])
        | .ok _ =>
          (.ok (mkDecision route baseline_risk llm_result),
            [.cacheRead key, .reasonerCall, .cacheWrite key])

/-! ### Helper lemmas about the orchestrator -/

lemma baseline_risk_nil : compute_baseline_risk (compute_baseline_components []) = 3 := by
  rw [compute_baseline_components_nil]
  unfold compute_baseline_risk
  rw [round2_eq_of_mul_eq _ 300 (by norm_num)]
  norm_num

lemma evaluate_route_ok_shape (env : EngineEnv) (route : String)
    (events : List RiskEvent) (now : ℤ) (d : DecisionResult)
    (h : (evaluate_route env route events now).1 = .ok d) :
    ∃ llm : LLMRiskResponse,
      d = mkDecision route
        (compute_baseline_risk (compute_baseline_components events)) llm := by
  simp only [evaluate_route] at h
  split at h
  · exact ⟨_, (Except.ok.inj h).symm⟩
  · split at h
    · exact absurd h (by simp)
    · exact ⟨_, (Except.ok.inj h).symm⟩
    · split at h
      · exact absurd h (by simp)
      · split at h
        · exact absurd h (by simp)
        · exact ⟨_, (Except.ok.inj h).symm⟩

lemma mkDecision_fields (route : String) (b : ℚ) (l : LLMRiskResponse) :
    (mkDecision route b l).confidence = l.confidence_score ∧
    (mkDecision route b l).final_risk
        = combine_baseline_and_llm b l.risk_score l.confidence_score ∧
    (mkDecision route b l).predicted_delay_days = l.predicted_delay_days ∧
    (mkDecision route b l).requires_escalation
        = (decide (l.confidence_score < 0.55) ||
            should_trigger_reroute (mkDecision route b l).final_risk
              l.predicted_delay_days) ∧
    (mkDecision route b l).cost_benefit
        = (if (mkDecision route b l).final_risk > 75
            then some build_cost_benefit_analysis_default else none) ∧
    (mkDecision route b l).recommended_action
        = (if should_trigger_reroute (mkDecision route b l).final_risk
              l.predicted_delay_days
            then
              match (mkDecision route b l).cost_benefit with
              | some c => c.recommendation
              | none => "reroute_now"
            else "monitor") := by
  simp [mkDecision]

/-- C5: when `baseline_risk < llm_trigger_threshold` (default 45),
`evaluate_route` synthesizes a deterministic `LLMRiskResponse` with
`risk_score = round(baseline_risk)`,
`predicted_delay_days = max(0.5, round(baseline_risk/20, 2))`, the fixed
low-risk alternatives and confidence 0.60, and consults neither the
reasoning cache nor the reasoning collaborator. -/
theorem C5_low_baseline_synthesis (env : EngineEnv) (route : String)
    (events : List RiskEvent) (now : ℤ)
    (h : compute_baseline_risk (compute_baseline_components events)
        < env.llm_trigger_threshold) :
    evaluate_route env route events now =
      (.ok (mkDecision route
        (compute_baseline_risk (compute_baseline_components events))
        { risk_score :=
            roundHalfEven (compute_baseline_risk (compute_baseline_components events))
          predicted_delay_days := max 0.5
            (round2 (compute_baseline_risk (compute_baseline_components events) / 20))
          alternatives := ["Continue normal route monitoring",
            "Increase supplier lead-time buffer"]
          reasoning :=
            "Baseline risk below LLM trigger threshold; deterministic policy applied."
          confidence_score := 0.60 }), []) ∧
    (∀ k, EngineCall.cacheRead k ∉ (evaluate_route env route events now).2) ∧
    EngineCall.reasonerCall ∉ (evaluate_route env route events now).2 := by
  have he : evaluate_route env route events now =
      (.ok (mkDecision route
        (compute_baseline_risk (compute_baseline_components events))
        (synthesizedResponse
          (compute_baseline_risk (compute_baseline_components events)))), []) := by
    simp only [evaluate_route, if_pos h]
  refine ⟨?_, ?_, ?_⟩
  · rw [he]
    rfl
  · intro k
    rw [he]
    simp
  · rw [he]
    simp

/-- Sample disconnected storage for witnesses. -/
def sampleStorage : Storage := ⟨none⟩

/-- Sample engine environment for witnesses: failing reasoner, disconnected
storage, default trigger threshold 45. -/
def sampleEnv : EngineEnv :=
  { reasonerEval := fun _ _ _ => .error ()
    storage := sampleStorage
    cacheKeyFn := fun _ _ => ""
    llm_trigger_threshold := 45.0 }

/-- Witness for C5 at the empty event list (baseline risk 3 < 45). -/
theorem C5_low_baseline_synthesis_witness :
    compute_baseline_risk (compute_baseline_components [])
        < sampleEnv.llm_trigger_threshold ∧
      EngineCall.reasonerCall ∉ (evaluate_route sampleEnv "Red Sea" [] 0).2 := by
  have hb : compute_baseline_risk (compute_baseline_components [])
      < sampleEnv.llm_trigger_threshold := by
    rw [baseline_risk_nil]
    norm_num [sampleEnv]
  exact ⟨hb, (C5_low_baseline_synthesis sampleEnv "Red Sea" [] 0 hb).2.2⟩

/-- C6: every `DecisionResult` produced by `evaluate_route` has
`requires_escalation` iff `llm_confidence < 0.55` or the reroute trigger
(`final_risk > 70` and `predicted_delay_days > 5`); in particular a
low-confidence result escalates regardless of risk. -/
theorem C6_escalation_policy (env : EngineEnv) (route : String)
    (events : List RiskEvent) (now : ℤ) (d : DecisionResult)
    (h : (evaluate_route env route events now).1 = .ok d) :
    (d.requires_escalation = true ↔
      (d.confidence < 0.55 ∨ (d.final_risk > 70 ∧ d.predicted_delay_days > 5))) ∧
    (d.confidence < 0.55 → d.requires_escalation = true) := by
  obtain ⟨llm, rfl⟩ := evaluate_route_ok_shape env route events now d h
  have hiff : (mkDecision route
      (compute_baseline_risk (compute_baseline_components events)) llm).requires_escalation
        = true ↔
      ((mkDecision route
          (compute_baseline_risk (compute_baseline_components events)) llm).confidence
          < 0.55 ∨
        ((mkDecision route
            (compute_baseline_risk (compute_baseline_components events)) llm).final_risk
            > 70 ∧
          (mkDecision route
              (compute_baseline_risk (compute_baseline_components events))
              llm).predicted_delay_days > 5)) := by
    simp only [mkDecision, should_trigger_reroute]
    norm_num
  exact ⟨hiff, fun hc => hiff.mpr (Or.inl hc)⟩

/-- The decision produced by `sampleEnv` on the empty event list. -/
def sampleDecision : DecisionResult :=
  mkDecision "R" (compute_baseline_risk (compute_baseline_components []))
    (synthesizedResponse (compute_baseline_risk (compute_baseline_components [])))

/-- Witness for C6 at a concrete low-baseline run. -/
theorem C6_escalation_policy_witness :
    (evaluate_route sampleEnv "R" [] 0).1 = .ok sampleDecision ∧
      (sampleDecision.requires_escalation = true ↔
        (sampleDecision.confidence < 0.55 ∨
          (sampleDecision.final_risk > 70 ∧ sampleDecision.predicted_delay_days > 5))) := by
  have hb : compute_baseline_risk (compute_baseline_components [])
      < sampleEnv.llm_trigger_threshold := by
    rw [baseline_risk_nil]
    norm_num [sampleEnv]
  have h : (evaluate_route sampleEnv "R" [] 0).1 = .ok sampleDecision := by
    simp only [evaluate_route, if_pos hb, sampleDecision]
  exact ⟨h, (C6_escalation_policy sampleEnv "R" [] 0 sampleDecision h).1⟩

/-- A two-event list with baseline risk exactly 68 (above the trigger
threshold 45), used for high-baseline runs. -/
def cexEvents : List RiskEvent :=
  [{ event_type := "Geopolitical", geo_location := "Suez", severity := 100
     confidence := 1, description := "d", source := "s", route := "R"
     event_time := 0 },
   { event_type := "PortCongestion", geo_location := "Mundra", severity := 100
     confidence := 1, description := "d", source := "s", route := "R"
     event_time := 0 }]

lemma baseline_components_cex :
    compute_baseline_components cexEvents =
      { geopolitical := 100, port_congestion := 100, weather := 0
        historical_reliability := 80 } := by
  simp [compute_baseline_components, cexEvents]
  norm_num

lemma baseline_risk_cex :
    compute_baseline_risk (compute_baseline_components cexEvents) = 68 := by
  rw [baseline_components_cex]
  unfold compute_baseline_risk
  rw [round2_eq_of_mul_eq _ 6800 (by norm_num)]
  norm_num

/-- A high-risk, high-confidence cached LLM response. -/
def llmHigh : LLMRiskResponse :=
  { risk_score := 100, predicted_delay_days := 10, alternatives := ["alt"]
    reasoning := "cached reasoning", confidence_score := 1 }

/-- A healthy connected pool whose cache always hits with `llmHigh`
(expiring at time 10). -/
def cexConn : StorageConn :=
  { cacheTable := fun _ => some (llmHigh, 10), readRaises := false
    writeRaises := false }

/-- Environment producing a cache-hit, high-risk run. -/
def cexEnv : EngineEnv :=
  { reasonerEval := fun _ _ _ => .error ()
    storage := ⟨some cexConn⟩
    cacheKeyFn := fun _ _ => ""
    llm_trigger_threshold := 45.0 }

/-- The decision of that run. -/
def cexDecision : DecisionResult := mkDecision "R" 68 llmHigh

lemma cex_combine :
    combine_baseline_and_llm 68 llmHigh.risk_score llmHigh.confidence_score
      = 87.2 := by
  simp only [combine_baseline_and_llm, llmHigh]
  have h1 : (1.0 - (0.2 + 0.4 * (1 : ℚ))) * 68
      + (0.2 + 0.4 * (1 : ℚ)) * ((100 : ℤ) : ℚ) = 87.2 := by
    push_cast
    norm_num
  rw [h1, min_eq_right (by norm_num), max_eq_right (by norm_num),
    round2_eq_of_mul_eq _ 8720 (by norm_num)]
  norm_num

lemma cex_run : (evaluate_route cexEnv "R" cexEvents 0).1 = .ok cexDecision := by
  simp only [evaluate_route, baseline_risk_cex]
  rw [if_neg (by norm_num [cexEnv])]
  simp [cexEnv, Storage.get_cached_reasoning, cexConn, cexDecision]

lemma cex_final : cexDecision.final_risk = 87.2 := by
  have h := (mkDecision_fields "R" 68 llmHigh).2.1
  rw [cexDecision, h, cex_combine]

/-- Counterexample to C7 as stated: a concrete `evaluate_route` run with
`final_risk > 75` includes the default cost-benefit analysis, whose wait-ETA
(15 + 3 = 18) is strictly lower than the reroute-ETA (28), yet whose
recommendation is the string `"wait_3_days"`, not `"wait"`. -/
theorem C7_counterexample :
    (evaluate_route cexEnv "R" cexEvents 0).1 = .ok cexDecision ∧
    cexDecision.final_risk > 75 ∧
    cexDecision.cost_benefit = some build_cost_benefit_analysis_default ∧
    build_cost_benefit_analysis_default.red_sea_eta_days
        + build_cost_benefit_analysis_default.wait_window_days
      < build_cost_benefit_analysis_default.cape_eta_days ∧
    build_cost_benefit_analysis_default.recommendation = "wait_3_days" ∧
    build_cost_benefit_analysis_default.recommendation ≠ "wait" := by
  refine ⟨cex_run, ?_, ?_, ?_, ?_, ?_⟩
  · rw [cex_final]
    norm_num
  · have h := (mkDecision_fields "R" 68 llmHigh).2.2.2.2.1
    rw [cexDecision, h]
    rw [show (mkDecision "R" 68 llmHigh).final_risk = 87.2 from cex_final]
    norm_num
  · simp [build_cost_benefit_analysis_default, build_cost_benefit_analysis]
    norm_num
  · simp [build_cost_benefit_analysis_default, build_cost_benefit_analysis]
    norm_num
  · simp only [build_cost_benefit_analysis_default, build_cost_benefit_analysis]
    rw [if_pos (by norm_num)]
    decide

/-- C7 amended (the code's recommendation string is `"wait_3_days"`, not
`"wait"`): `evaluate_route` includes the default cost-benefit analysis iff
`final_risk > 75`; `build_cost_benefit_analysis` recommends `"wait_3_days"`
exactly when the wait-ETA (`red_sea_days + wait_days`) is strictly lower than
the reroute-ETA (`cape_days`) and `"reroute_now"` otherwise; and
`recommended_action` is `"monitor"` unless the reroute trigger fires, in
which case it is the cost-benefit recommendation (`"reroute_now"` when no
cost-benefit analysis was computed). -/
theorem C7_cost_benefit_amended (env : EngineEnv) (route : String)
    (events : List RiskEvent) (now : ℤ) (d : DecisionResult)
    (h : (evaluate_route env route events now).1 = .ok d)
    (w r rc c cc : ℚ) :
    (d.cost_benefit ≠ none ↔ d.final_risk > 75) ∧
    (d.cost_benefit = none ∨
      d.cost_benefit = some build_cost_benefit_analysis_default) ∧
    ((build_cost_benefit_analysis w r rc c cc).recommendation = "wait_3_days"
      ↔ r + w < c) ∧
    ((build_cost_benefit_analysis w r rc c cc).recommendation = "reroute_now"
      ↔ ¬ (r + w < c)) ∧
    (d.recommended_action =
      if should_trigger_reroute d.final_risk d.predicted_delay_days then
        match d.cost_benefit with
        | some cb => cb.recommendation
        | none => "reroute_now"
      else "monitor") := by
  obtain ⟨llm, rfl⟩ := evaluate_route_ok_shape env route events now d h
  obtain ⟨-, -, hdelay, -, hcba, hact⟩ := mkDecision_fields route
    (compute_baseline_risk (compute_baseline_components events)) llm
  refine ⟨?_, ?_, ?_, ?_, ?_⟩
  · rw [hcba]
    by_cases hf : (mkDecision route
        (compute_baseline_risk (compute_baseline_components events)) llm).final_risk
          > 75 <;>
      simp [hf]
  · rw [hcba]
    by_cases hf : (mkDecision route
        (compute_baseline_risk (compute_baseline_components events)) llm).final_risk
          > 75 <;>
      simp [hf]
  · simp only [build_cost_benefit_analysis]
    by_cases hw : r + w < c <;> simp [hw]
  · simp only [build_cost_benefit_analysis]
    by_cases hw : r + w < c <;> simp [hw]
  · rw [hact, hdelay]

/-- Witness for the amended C7 at the concrete cache-hit run and the
default cost-benefit arguments. -/
theorem C7_cost_benefit_amended_witness :
    (evaluate_route cexEnv "R" cexEvents 0).1 = .ok cexDecision ∧
      ((build_cost_benefit_analysis 3.0 15.0 2000.0 28.0 3500.0).recommendation
          = "wait_3_days" ↔ (15.0 : ℚ) + 3.0 < 28.0) :=
  ⟨cex_run, (C7_cost_benefit_amended cexEnv "R" cexEvents 0 cexDecision cex_run
    3.0 15.0 2000.0 28.0 3500.0).2.2.1⟩

/-- A connected pool whose cache-read query raises a database exception. -/
def c9Conn : StorageConn :=
  { cacheTable := fun _ => none, readRaises := true, writeRaises := false }

/-- Environment whose storage raises on the cache read and whose reasoner
would succeed. -/
def c9Env : EngineEnv :=
  { reasonerEval := fun _ _ _ => .ok (llmHigh, build_cache_payload "R" [] 0)
    storage := ⟨some c9Conn⟩
    cacheKeyFn := fun _ _ => ""
    llm_trigger_threshold := 45.0 }

/-- Counterexample to C9 as stated: when the storage collaborator raises
during the cache read (the source wraps the query in no `try`/`except`),
`evaluate_route` aborts with a storage error — no `DecisionResult` is
produced and the reasoning collaborator is never invoked. -/
theorem C9_counterexample :
    (evaluate_route c9Env "R" cexEvents 0).1 = .error .storage ∧
    EngineCall.reasonerCall ∉ (evaluate_route c9Env "R" cexEvents 0).2 := by
  have he : evaluate_route c9Env "R" cexEvents 0
      = (.error .storage, [.cacheRead ""]) := by
    simp only [evaluate_route, baseline_risk_cex]
    rw [if_neg (by norm_num [c9Env])]
    simp [c9Env, Storage.get_cached_reasoning, c9Conn]
  rw [he]
  simp

/-- C9 amended: when the storage collaborator is unavailable (no connected
pool), the cache read returns no entry and the cache write is a no-op, so
evaluation proceeds exactly as on a cache miss — the reasoning collaborator
is invoked and its successful result yields a `DecisionResult`. A database
exception raised during the cache read/write, by contrast, propagates and
aborts the evaluation with a storage error. -/
theorem C9_storage_unavailable_amended (env : EngineEnv) (route : String)
    (events : List RiskEvent) (now : ℤ)
    (hpool : env.storage.pool = none) (rp : LLMRiskResponse × CachePayload)
    (hr : env.reasonerEval route events
        (compute_baseline_risk (compute_baseline_components events)) = .ok rp)
    (hb : ¬ compute_baseline_risk (compute_baseline_components events)
        < env.llm_trigger_threshold) :
    (evaluate_route env route events now).1
        = .ok (mkDecision route
            (compute_baseline_risk (compute_baseline_components events)) rp.1) ∧
    EngineCall.reasonerCall ∈ (evaluate_route env route events now).2 := by
  have he : evaluate_route env route events now
      = (.ok (mkDecision route
          (compute_baseline_risk (compute_baseline_components events)) rp.1),
        [.cacheRead (env.cacheKeyFn route
            (build_cache_payload route events
              (compute_baseline_risk (compute_baseline_components events)))),
          .reasonerCall,
          .cacheWrite (env.cacheKeyFn route
            (build_cache_payload route events
              (compute_baseline_risk (compute_baseline_components events))))]) := by
    simp only [evaluate_route, if_neg hb, Storage.get_cached_reasoning, hpool, hr,
      Storage.set_cached_reasoning]
  rw [he]
  simp

/-- Environment with a disconnected pool and a succeeding reasoner. -/
def c9MissEnv : EngineEnv :=
  { reasonerEval := fun _ _ _ => .ok (llmHigh, build_cache_payload "R" [] 0)
    storage := ⟨none⟩
    cacheKeyFn := fun _ _ => ""
    llm_trigger_threshold := 45.0 }

/-- Witness for the amended C9 at a concrete disconnected-storage run. -/
theorem C9_storage_unavailable_amended_witness :
    c9MissEnv.storage.pool = none ∧
      EngineCall.reasonerCall ∈ (evaluate_route c9MissEnv "R" cexEvents 0).2 := by
  have hpool : c9MissEnv.storage.pool = none := rfl
  have hr : c9MissEnv.reasonerEval "R" cexEvents
      (compute_baseline_risk (compute_baseline_components cexEvents))
        = .ok (llmHigh, build_cache_payload "R" [] 0) := rfl
  have hb : ¬ compute_baseline_risk (compute_baseline_components cexEvents)
      < c9MissEnv.llm_trigger_threshold := by
    rw [baseline_risk_cex]
    norm_num [c9MissEnv]
  exact ⟨hpool, (C9_storage_unavailable_amended c9MissEnv "R" cexEvents 0 hpool
    (llmHigh, build_cache_payload "R" [] 0) hr hb).2⟩

/-! ### Alert dispatch service (`notifications.py`, alert side of
`storage.py`)

The `alert_dispatch_log` table is a list of records; `created_at` is an
epoch timestamp and `id` the append-only primary key. JSON decision
payloads are modelled as either the dump of a `DecisionResult` or a corrupt
blob, so that pydantic's strict `model_validate` round-trip and its failure
path are both first-class. -/

/-- A stored `decision_payload` JSON value. -/
inductive Payload where
  | ofDecision (d : DecisionResult)
  | corrupt (s : String)
deriving DecidableEq, Repr

/-- `DecisionResult.model_dump()`. -/
def model_dump (d : DecisionResult) : Payload := .ofDecision d

/-- `DecisionResult.model_validate`: strict validation; anything that is not
the dump of a decision raises (`none`). -/
def model_validate : Payload → Option DecisionResult
  | .ofDecision d => some d
  | .corrupt _ => none

/-- A row of the `alert_dispatch_log` table. -/
structure StoredRecord where
  id : ℕ
  alert_key : String
  route : String
  risk_bucket : String
  recipient : String
  status : String
  decision_payload : Option Payload
  attempt_number : ℕ
  provider_message_id : Option String
  error_message : Option String
  created_at : ℤ
deriving DecidableEq, Repr

/-- `storage.Storage.log_alert_dispatch`: append-only insert with a fresh
primary key and `created_at = NOW()`. -/
def log_alert_dispatch (log : List StoredRecord)
    (alert_key route risk_bucket recipient status : String)
    (decision_payload : Option Payload) (attempt_number : ℕ)
    (provider_message_id error_message : Option String) (now : ℤ) :
    List StoredRecord :=
  log ++ [{ id := log.length, alert_key := alert_key, route := route
            risk_bucket := risk_bucket, recipient := recipient, status := status
            decision_payload := decision_payload
            attempt_number := attempt_number
            provider_message_id := provider_message_id
            error_message := error_message, created_at := now }]

/-- `storage.Storage.has_recent_alert`: is there a `sent` record with this
key and recipient later than `NOW() - lookback_hours`? -/
def has_recent_alert (log : List StoredRecord) (alert_key recipient : String)
    (lookback_hours : ℕ) (now : ℤ) : Bool :=
  log.any (fun r => decide (r.alert_key = alert_key)
    && decide (r.recipient = recipient)
    && decide (r.status = "sent")
    && decide (now - (lookback_hours : ℤ) * 3600 < r.created_at))

/-- `notifications.AlertService._risk_bucket`. -/
def _risk_bucket (score : ℚ) : String :=
  if score ≥ 80 then "critical"
  else if score ≥ 60 then "high"
  else if score ≥ 40 then "medium"
  else "low"

/-- The seed string hashed by `notifications.AlertService._alert_key`. The
`date_key` argument is `datetime.now(timezone.utc).strftime("%Y-%m-%d")`,
passed in explicitly. -/
def alert_key_seed (result : DecisionResult) (date_key recipient : String) :
    String :=
  result.route ++ ":" ++ date_key ++ ":" ++ _risk_bucket result.final_risk
    ++ ":" ++ recipient

/-- Collaborators of `notifications.AlertService`: the SHA-256 hex digest
(abstracted as an arbitrary deterministic function — no claim depends on its
value), the outcome of `_send_with_retries` per recipient and decision
(success flag plus provider message id or last error), and the configured
`dedup_hours` (default 6). -/
structure AlertEnv where
  sha256hex : String → String
  sendOutcome : String → DecisionResult → Bool × Option String
  dedup_hours : ℕ

/-- `notifications.AlertService._alert_key`. -/
def _alert_key (env : AlertEnv) (result : DecisionResult)
    (date_key recipient : String) : String :=
  env.sha256hex (alert_key_seed result date_key recipient)

/-- The body of the per-recipient loop of `notifications.AlertService.dispatch`
(lines 124–167): returns the updated log and whether `_send_with_retries`
was invoked for this recipient. -/
def dispatchStep (env : AlertEnv) (result : DecisionResult) (dry_run : Bool)
    (date_key : String) (now : ℤ) (log : List StoredRecord)
    (recipient : String) : List StoredRecord × Bool :=
  let risk_bucket := _risk_bucket result.final_risk
  let bypass_dedup := decide (result.final_risk ≥ 90.0)
  let payload := model_dump result
  let alert_key := _alert_key env result date_key recipient
  if !bypass_dedup
      && has_recent_alert log alert_key recipient env.dedup_hours now then
    (log, false)
  else if dry_run then
    (log_alert_dispatch log alert_key result.route risk_bucket recipient
      "dry_run" (some payload) 1 none none now, false)
  else if (env.sendOutcome recipient result).1 then
    (log_alert_dispatch log alert_key result.route risk_bucket recipient
      "sent" (some payload) 1 (env.sendOutcome recipient result).2 none now, true)
  else
    (log_alert_dispatch log alert_key result.route risk_bucket recipient
      "failed" (some payload) 1 none (env.sendOutcome recipient result).2 now, true)

/-- `notifications.AlertService.dispatch`: sequential per-recipient loop
threading the dispatch log. -/
def dispatch (env : AlertEnv) (recipients : List String)
    (result : DecisionResult) (dry_run : Bool) (date_key : String) (now : ℤ)
    (log : List StoredRecord) : List StoredRecord :=
  if recipients = [] then log
  else recipients.foldl
    (fun acc recipient => (dispatchStep env result dry_run date_key now acc recipient).1)
    log

/-- The `created_at > NOW() - lookback` window filter of
`storage.Storage.get_retry_candidates`. -/
def withinLookback (lookback_hours : ℕ) (now : ℤ) (r : StoredRecord) : Bool :=
  decide (now - (lookback_hours : ℤ) * 3600 < r.created_at)

/-- `b` is strictly later than `a` in the `(created_at, id)` order used to
pick the `DISTINCT ON` representative (timestamp, primary key as
tie-break). -/
def laterIn (a b : StoredRecord) : Bool :=
  decide (a.created_at < b.created_at)
    || (decide (a.created_at = b.created_at) && decide (a.id < b.id))

/-- Same `(alert_key, recipient)` group. -/
def samePair (a b : StoredRecord) : Bool :=
  decide (a.alert_key = b.alert_key) && decide (a.recipient = b.recipient)

/-- `r` is the latest record of its `(alert_key, recipient)` group among
`recent` (the `DISTINCT ON (alert_key, recipient) ... ORDER BY created_at
DESC` selection). -/
def isLatestFor (recent : List StoredRecord) (r : StoredRecord) : Bool :=
  recent.all (fun r2 => !(samePair r r2 && laterIn r r2))

/-- Insertion step of the `ORDER BY created_at DESC` sort. -/
def insertDesc (r : StoredRecord) : List StoredRecord → List StoredRecord
  | [] => [r]
  | x :: xs => if laterIn x r then r :: x :: xs else x :: insertDesc r xs

/-- `ORDER BY created_at DESC` (ties by id). -/
def sortDesc : List StoredRecord → List StoredRecord
  | [] => []
  | x :: xs => insertDesc x (sortDesc xs)

/-- `storage.Storage.get_retry_candidates`: latest record per
`(alert_key, recipient)` within the lookback window, filtered to status
`failed` with a non-null decision payload, most recent first, limited. -/
def get_retry_candidates (log : List StoredRecord)
    (limit lookback_hours : ℕ) (now : ℤ) : List StoredRecord :=
  let recent := log.filter (withinLookback lookback_hours now)
  let latest := recent.filter (isLatestFor recent)
  let failedRows := latest.filter
    (fun r => decide (r.status = "failed") && r.decision_payload.isSome)
  (sortDesc failedRows).take limit

/-- The body of the per-candidate loop of
`notifications.AlertService.retry_failed_dispatches` (lines 184–240). The
state is (log, retried count, trace of recipients `_send_with_retries` was
invoked for). -/
def retryStep (env : AlertEnv) (dry_run : Bool) (now : ℤ)
    (st : List StoredRecord × ℕ × List String) (row : StoredRecord) :
    List StoredRecord × ℕ × List String :=
  let attempt_number := (if row.attempt_number = 0 then 1 else row.attempt_number) + 1
  match row.decision_payload.bind model_validate with
  | none =>
    (log_alert_dispatch st.1 row.alert_key row.route row.risk_bucket
      row.recipient "failed" none attempt_number none
      (some "invalid_decision_payload") now, st.2.1, st.2.2)
  | some result =>
    if dry_run then
      (log_alert_dispatch st.1 row.alert_key result.route row.risk_bucket
        row.recipient "dry_run" (some (model_dump result)) attempt_number
        none none now, st.2.1 + 1, st.2.2)
    else if (env.sendOutcome row.recipient result).1 then
      (log_alert_dispatch st.1 row.alert_key result.route row.risk_bucket
        row.recipient "sent" (some (model_dump result)) attempt_number
        (env.sendOutcome row.recipient result).2 none now, st.2.1 + 1,
        st.2.2 ++ [row.recipient])
    else
      (log_alert_dispatch st.1 row.alert_key result.route row.risk_bucket
        row.recipient "failed" (some (model_dump result)) attempt_number
        none (env.sendOutcome row.recipient result).2 now, st.2.1,
        st.2.2 ++ [row.recipient])

/-- `notifications.AlertService.retry_failed_dispatches`: returns the
retried count and the updated log. -/
def retry_failed_dispatches (env : AlertEnv) (log : List StoredRecord)
    (max_records lookback_hours : ℕ) (dry_run : Bool) (now : ℤ) :
    ℕ × List StoredRecord :=
  let rows := get_retry_candidates log max_records lookback_hours now
  if rows = [] then (0, log)
  else
    let final := rows.foldl (retryStep env dry_run now) (log, 0, [])
    (final.2.1, final.1)

/-- Spec-side characterization of the candidates counted by the sweep:
those whose payload validates and whose re-attempt ends `dry_run` or
`sent`. -/
def retrySucceeds (env : AlertEnv) (dry_run : Bool) (row : StoredRecord) :
    Bool :=
  match row.decision_payload.bind model_validate with
  | none => false
  | some result => dry_run || (env.sendOutcome row.recipient result).1

/-! ### Helper lemmas about the dispatch service -/

lemma dispatch_cons (env : AlertEnv) (result : DecisionResult) (dry_run : Bool)
    (date_key : String) (now : ℤ) (log : List StoredRecord) (r : String)
    (rest : List String) :
    dispatch env (r :: rest) result dry_run date_key now log
      = dispatch env rest result dry_run date_key now
          (dispatchStep env result dry_run date_key now log r).1 := by
  simp only [dispatch]
  rw [if_neg (by simp), List.foldl_cons]
  cases rest with
  | nil => simp
  | cons a as => rw [if_neg (by simp)]

/-- C1: per recipient of a `dispatch()` call — if `final_risk ≥ 90` the dedup
check is bypassed and exactly one terminal record is appended whose shape
depends only on `dry_run` and the send outcome, never on prior sent history
(with a delivery attempt iff not dry-run); otherwise a prior `sent` record
with the same alert key within `dedup_hours` makes the recipient a skip with
no record and no delivery attempt; otherwise exactly one terminal record
(`sent`, `failed` or `dry_run`) is appended. The first conjunct shows
`dispatch` processes its recipient list through exactly this per-recipient
step. -/
theorem C1_dispatch_dedup_trichotomy (env : AlertEnv) (result : DecisionResult)
    (dry_run : Bool) (date_key : String) (now : ℤ) (log : List StoredRecord)
    (recipient : String) (rest : List String) :
    (dispatch env (recipient :: rest) result dry_run date_key now log
      = dispatch env rest result dry_run date_key now
          (dispatchStep env result dry_run date_key now log recipient).1) ∧
    (result.final_risk ≥ 90 →
      dispatchStep env result dry_run date_key now log recipient
        = if dry_run then
            (log_alert_dispatch log (_alert_key env result date_key recipient)
              result.route (_risk_bucket result.final_risk) recipient "dry_run"
              (some (model_dump result)) 1 none none now, false)
          else if (env.sendOutcome recipient result).1 then
            (log_alert_dispatch log (_alert_key env result date_key recipient)
              result.route (_risk_bucket result.final_risk) recipient "sent"
              (some (model_dump result)) 1 (env.sendOutcome recipient result).2
              none now, true)
          else
            (log_alert_dispatch log (_alert_key env result date_key recipient)
              result.route (_risk_bucket result.final_risk) recipient "failed"
              (some (model_dump result)) 1 none
              (env.sendOutcome recipient result).2 now, true)) ∧
    (¬ result.final_risk ≥ 90 →
      has_recent_alert log (_alert_key env result date_key recipient)
          recipient env.dedup_hours now = true →
      dispatchStep env result dry_run date_key now log recipient = (log, false)) ∧
    (¬ result.final_risk ≥ 90 →
      has_recent_alert log (_alert_key env result date_key recipient)
          recipient env.dedup_hours now = false →
      ∃ rec : StoredRecord,
        (dispatchStep env result dry_run date_key now log recipient).1
            = log ++ [rec] ∧
        (rec.status = "sent" ∨ rec.status = "failed" ∨ rec.status = "dry_run") ∧
        rec.recipient = recipient ∧
        rec.alert_key = _alert_key env result date_key recipient ∧
        (dispatchStep env result dry_run date_key now log recipient).2
            = !dry_run) := by
  refine ⟨dispatch_cons env result dry_run date_key now log recipient rest,
    ?_, ?_, ?_⟩
  · intro h
    have hd : decide (result.final_risk ≥ 90.0) = true :=
      decide_eq_true (by norm_num; exact h)
    simp only [dispatchStep, hd, Bool.not_true, Bool.false_and,
      Bool.false_eq_true, if_false]
  · intro h hrec
    have hd : decide (result.final_risk ≥ 90.0) = false :=
      decide_eq_false (by norm_num; exact lt_of_not_ge h)
    simp only [dispatchStep, hd, Bool.not_false, Bool.true_and, hrec, if_true]
  · intro h hrec
    have hd : decide (result.final_risk ≥ 90.0) = false :=
      decide_eq_false (by norm_num; exact lt_of_not_ge h)
    simp only [dispatchStep, hd, Bool.not_false, Bool.true_and, hrec,
      Bool.false_eq_true, if_false]
    by_cases hdry : dry_run
    · subst hdry
      simp only [if_true, log_alert_dispatch]
      exact ⟨_, rfl, Or.inr (Or.inr rfl), rfl, rfl, rfl⟩
    · simp only [hdry, Bool.false_eq_true, if_false]
      by_cases hs : (env.sendOutcome recipient result).1
      · simp only [hs, if_true, log_alert_dispatch]
        refine ⟨_, rfl, Or.inl rfl, rfl, rfl, ?_⟩
        simp [hdry]
      · simp only [hs, Bool.false_eq_true, if_false, log_alert_dispatch]
        refine ⟨_, rfl, Or.inr (Or.inl rfl), rfl, rfl, ?_⟩
        simp [hdry]

/-- Identity-hash, always-failing-send environment for dispatch witnesses. -/
def dispatchEnv : AlertEnv :=
  { sha256hex := fun s => s
    sendOutcome := fun _ _ => (false, some "sendgrid_not_configured")
    dedup_hours := 6 }

/-- A non-critical decision (final risk 75 → bucket `high`). -/
def dispatchResult75 : DecisionResult :=
  { route := "R", baseline_risk := 70, llm_risk := 80, final_risk := 75
    predicted_delay_days := 7, alternatives := [], reason := "t"
    confidence := 0.8, requires_escalation := true
    recommended_action := "monitor", cost_benefit := none }

/-- A log already holding a `sent` record for the dedup key of
`dispatchResult75` and recipient `"a"` on date `"d"`. -/
def dispatchLogW : List StoredRecord :=
  [{ id := 0, alert_key := "R:d:high:a", route := "R", risk_bucket := "high"
     recipient := "a", status := "sent", decision_payload := none
     attempt_number := 1, provider_message_id := none, error_message := none
     created_at := 0 }]

lemma dispatch_key_75 : _alert_key dispatchEnv dispatchResult75 "d" "a"
    = "R:d:high:a" := by
  simp only [_alert_key, dispatchEnv, alert_key_seed, _risk_bucket,
    dispatchResult75]
  norm_num
  decide

/-- Witness for C1: the dedup-skip branch at a concrete prior-sent log. -/
theorem C1_dispatch_dedup_trichotomy_witness :
    ¬ dispatchResult75.final_risk ≥ 90 ∧
      has_recent_alert dispatchLogW
          (_alert_key dispatchEnv dispatchResult75 "d" "a") "a"
          dispatchEnv.dedup_hours 0 = true ∧
      dispatchStep dispatchEnv dispatchResult75 false "d" 0 dispatchLogW "a"
        = (dispatchLogW, false) := by
  have h1 : ¬ dispatchResult75.final_risk ≥ 90 := by
    norm_num [dispatchResult75]
  have h2 : has_recent_alert dispatchLogW
      (_alert_key dispatchEnv dispatchResult75 "d" "a") "a"
      dispatchEnv.dedup_hours 0 = true := by
    rw [dispatch_key_75]
    decide
  exact ⟨h1, h2, (C1_dispatch_dedup_trichotomy dispatchEnv dispatchResult75
    false "d" 0 dispatchLogW "a" []).2.2.1 h1 h2⟩

lemma mem_insertDesc (a r : StoredRecord) (l : List StoredRecord) :
    a ∈ insertDesc r l ↔ a = r ∨ a ∈ l := by
  induction l with
  | nil => simp [insertDesc]
  | cons x xs ih =>
    simp only [insertDesc]
    split
    · simp [List.mem_cons]
    · simp only [List.mem_cons, ih]
      tauto

lemma mem_sortDesc (a : StoredRecord) (l : List StoredRecord) :
    a ∈ sortDesc l ↔ a ∈ l := by
  induction l with
  | nil => simp [sortDesc]
  | cons x xs ih => simp [sortDesc, mem_insertDesc, ih]

lemma mem_candidates (log : List StoredRecord) (limit lookback_hours : ℕ)
    (now : ℤ) (r : StoredRecord)
    (h : r ∈ get_retry_candidates log limit lookback_hours now) :
    r ∈ log ∧ withinLookback lookback_hours now r = true ∧
      r.status = "failed" ∧ r.decision_payload.isSome = true ∧
      isLatestFor (log.filter (withinLookback lookback_hours now)) r = true := by
  simp only [get_retry_candidates] at h
  have h1 := List.mem_of_mem_take h
  rw [mem_sortDesc] at h1
  simp only [List.mem_filter, Bool.and_eq_true, decide_eq_true_eq] at h1
  exact ⟨h1.1.1.1, h1.1.1.2, h1.2.1, h1.2.2, h1.1.2⟩

lemma candidate_latest (log : List StoredRecord) (lookback_hours : ℕ)
    (now : ℤ) (r : StoredRecord)
    (hl : isLatestFor (log.filter (withinLookback lookback_hours now)) r = true) :
    ∀ r2 ∈ log, withinLookback lookback_hours now r2 = true →
      r2.alert_key = r.alert_key → r2.recipient = r.recipient →
      laterIn r r2 = false := by
  intro r2 h2 hw hk hr
  have hmem : r2 ∈ log.filter (withinLookback lookback_hours now) :=
    List.mem_filter.mpr ⟨h2, hw⟩
  rw [isLatestFor, List.all_eq_true] at hl
  have := hl r2 hmem
  simp only [samePair, Bool.not_eq_true', Bool.and_eq_false_iff,
    decide_eq_false_iff_not] at this
  rcases this with h | h
  · rcases h with h | h
    · exact absurd hk.symm h
    · exact absurd hr.symm h
  · exact h

/-- C8: `retry_failed_dispatches` re-attempts only candidates whose most
recent record per `(alert_key, recipient)` within the lookback window has
status `failed` and a non-null decision payload — never one whose latest
status is `sent` or `dry_run` — each such pair yields at most one candidate
per sweep, and a candidate whose stored decision payload fails validation is
handled totally: exactly one new `failed` record with error
`invalid_decision_payload` and an incremented attempt number is appended,
the count is unchanged and no delivery is attempted for it. -/
theorem C8_retry_sweep_selection (env : AlertEnv) (log : List StoredRecord)
    (limit lookback_hours : ℕ) (now : ℤ) (dry_run : Bool)
    (st : List StoredRecord × ℕ × List String) (row : StoredRecord) :
    (∀ r ∈ get_retry_candidates log limit lookback_hours now,
      r ∈ log ∧ withinLookback lookback_hours now r = true ∧
      r.status = "failed" ∧ r.decision_payload.isSome = true ∧
      (∀ r2 ∈ log, withinLookback lookback_hours now r2 = true →
        r2.alert_key = r.alert_key → r2.recipient = r.recipient →
        laterIn r r2 = false)) ∧
    (row.decision_payload.bind model_validate = none →
      retryStep env dry_run now st row
        = (log_alert_dispatch st.1 row.alert_key row.route row.risk_bucket
            row.recipient "failed" none
            ((if row.attempt_number = 0 then 1 else row.attempt_number) + 1)
            none (some "invalid_decision_payload") now, st.2.1, st.2.2)) ∧
    ((log.map (fun r => r.id)).Nodup →
      ∀ r1 ∈ get_retry_candidates log limit lookback_hours now,
      ∀ r2 ∈ get_retry_candidates log limit lookback_hours now,
        r1.alert_key = r2.alert_key → r1.recipient = r2.recipient →
        r1 = r2) := by
  refine ⟨?_, ?_, ?_⟩
  · intro r hr
    obtain ⟨hmem, hw, hst, hpl, hl⟩ :=
      mem_candidates log limit lookback_hours now r hr
    exact ⟨hmem, hw, hst, hpl, candidate_latest log lookback_hours now r hl⟩
  · intro h
    simp only [retryStep, h]
  · intro hnodup r1 h1 r2 h2 hk hr
    obtain ⟨hm1, hw1, -, -, hl1⟩ :=
      mem_candidates log limit lookback_hours now r1 h1
    obtain ⟨hm2, hw2, -, -, hl2⟩ :=
      mem_candidates log limit lookback_hours now r2 h2
    have h12 := candidate_latest log lookback_hours now r1 hl1 r2 hm2 hw2
      hk.symm hr.symm
    have h21 := candidate_latest log lookback_hours now r2 hl2 r1 hm1 hw1
      hk hr
    simp only [laterIn, Bool.or_eq_false_iff, Bool.and_eq_false_iff,
      decide_eq_false_iff_not, not_lt] at h12 h21
    have hc : r1.created_at = r2.created_at :=
      le_antisymm h21.1 h12.1
    have hid : r1.id = r2.id := by
      rcases h12.2 with h | h
      · exact absurd hc h
      · rcases h21.2 with h' | h'
        · exact absurd hc.symm h'
        · omega
    exact List.inj_on_of_nodup_map hnodup hm1 hm2 hid

/-- A retry candidate whose stored payload is corrupt. -/
def corruptRow : StoredRecord :=
  { id := 0, alert_key := "k", route := "R", risk_bucket := "high"
    recipient := "a", status := "failed"
    decision_payload := some (.corrupt "junk"), attempt_number := 1
    provider_message_id := none, error_message := none, created_at := 0 }

/-- Witness for C8: the invalid-payload branch at a concrete corrupt row. -/
theorem C8_retry_sweep_selection_witness :
    corruptRow.decision_payload.bind model_validate = none ∧
      retryStep dispatchEnv false 0 ([], 0, []) corruptRow
        = (log_alert_dispatch [] corruptRow.alert_key corruptRow.route
            corruptRow.risk_bucket corruptRow.recipient "failed" none
            ((if corruptRow.attempt_number = 0 then 1
              else corruptRow.attempt_number) + 1)
            none (some "invalid_decision_payload") 0, 0, []) := by
  have h : corruptRow.decision_payload.bind model_validate = none := rfl
  exact ⟨h, (C8_retry_sweep_selection dispatchEnv [] 0 0 0 false
    ([], 0, []) corruptRow).2.1 h⟩

lemma retryStep_count (env : AlertEnv) (dry_run : Bool) (now : ℤ)
    (st : List StoredRecord × ℕ × List String) (row : StoredRecord) :
    (retryStep env dry_run now st row).2.1
      = st.2.1 + (if retrySucceeds env dry_run row then 1 else 0) := by
  cases h : row.decision_payload.bind model_validate with
  | none => simp [retryStep, retrySucceeds, h]
  | some d =>
    by_cases hd : dry_run
    · simp [retryStep, retrySucceeds, h, hd]
    · by_cases hs : (env.sendOutcome row.recipient d).1 <;>
        simp [retryStep, retrySucceeds, h, hd, hs]

lemma retry_fold_count (env : AlertEnv) (dry_run : Bool) (now : ℤ)
    (rows : List StoredRecord) :
    ∀ st : List StoredRecord × ℕ × List String,
      (rows.foldl (retryStep env dry_run now) st).2.1
        = st.2.1 + (rows.filter (retrySucceeds env dry_run)).length := by
  induction rows with
  | nil =>
    intro st
    simp
  | cons r rs ih =>
    intro st
    rw [List.foldl_cons, ih, retryStep_count]
    by_cases h : retrySucceeds env dry_run r
    · simp [h, List.filter_cons]
      omega
    · simp [h, List.filter_cons]

/-- C10: the integer returned by `retry_failed_dispatches` counts exactly the
candidates whose re-attempt ended `sent` or `dry_run` (valid payload and, if
not a dry run, a successful send); a candidate whose re-attempted delivery
fails again still gets a new `failed` record appended but is not counted. -/
theorem C10_retry_count (env : AlertEnv) (log : List StoredRecord)
    (max_records lookback_hours : ℕ) (dry_run : Bool) (now : ℤ)
    (st : List StoredRecord × ℕ × List String) (row : StoredRecord)
    (d : DecisionResult) :
    ((retry_failed_dispatches env log max_records lookback_hours dry_run now).1
      = ((get_retry_candidates log max_records lookback_hours now).filter
          (retrySucceeds env dry_run)).length) ∧
    (row.decision_payload.bind model_validate = some d →
      (env.sendOutcome row.recipient d).1 = false →
      retryStep env false now st row
        = (log_alert_dispatch st.1 row.alert_key d.route row.risk_bucket
            row.recipient "failed" (some (model_dump d))
            ((if row.attempt_number = 0 then 1 else row.attempt_number) + 1)
            none (env.sendOutcome row.recipient d).2 now,
          st.2.1, st.2.2 ++ [row.recipient])) := by
  constructor
  · simp only [retry_failed_dispatches]
    split
    · rename_i h
      rw [h]
      simp
    · rw [retry_fold_count]
      simp
  · intro h hs
    simp [retryStep, h, hs]

/-- A retry candidate whose stored payload validates back to
`dispatchResult75`. -/
def validRow : StoredRecord :=
  { id := 0, alert_key := "k", route := "R", risk_bucket := "high"
    recipient := "a", status := "failed"
    decision_payload := some (model_dump dispatchResult75)
    attempt_number := 1, provider_message_id := none, error_message := none
    created_at := 0 }

/-- Witness for C10: a failed re-attempt writes a `failed` record and is not
counted. -/
theorem C10_retry_count_witness :
    validRow.decision_payload.bind model_validate = some dispatchResult75 ∧
      (dispatchEnv.sendOutcome "a" dispatchResult75).1 = false ∧
      retryStep dispatchEnv false 0 ([], 0, []) validRow
        = (log_alert_dispatch [] validRow.alert_key dispatchResult75.route
            validRow.risk_bucket validRow.recipient "failed"
            (some (model_dump dispatchResult75))
            ((if validRow.attempt_number = 0 then 1
              else validRow.attempt_number) + 1)
            none (dispatchEnv.sendOutcome "a" dispatchResult75).2 0,
          0, [] ++ ["a"]) := by
  have h1 : validRow.decision_payload.bind model_validate
      = some dispatchResult75 := rfl
  have h2 : (dispatchEnv.sendOutcome "a" dispatchResult75).1 = false := rfl
  exact ⟨h1, h2, (C10_retry_count dispatchEnv [] 0 0 false 0 ([], 0, [])
    validRow dispatchResult75).2 h1 h2⟩

end Vanguard
